import Mathlib

/-!
Shallow embedding of the battle-damage estimation core of the PokéDex
Explorer repository.

The embedded code consists of:
* the `typeEffectiveness` table and `calculateBattleDamage` from
  `src/assets/js/main.js` (lines 43-62 and 1043-1093), and
* the near-duplicate `calculateBattleDamage` with its hardcoded 4-type
  chart from `src/assets/js/controller/gamingController.js`
  (lines 195-251), embedded in namespace `Gaming`.

JavaScript strings are modelled as `String`, JS object lookup as
association-list lookup returning `Option`, and all numeric arithmetic
as exact rational arithmetic (`ℚ`); the effectiveness factors 2, 0.5
and 0 are exact in binary floating point, so the multiplier arithmetic
of the source is reproduced exactly. `Math.floor` is `Int.floor`.
-/

attribute [local semireducible] Rat.mul Rat.add Rat.sub Rat.inv

/-- One entry of the type-effectiveness table: the sets (lists in the
source) of attacking types this defending type is weak to, resistant
to, and immune to. Mirrors the object values of `typeEffectiveness`
in `main.js`. -/
structure TypeEntry where
  weakTo : List String
  resistantTo : List String
  immuneTo : List String
deriving DecidableEq, Repr

/-- The `typeEffectiveness` object literal of `main.js` lines 43-62
(textually identical to the copy in the Model data file), kept as the
association list of its 18 key/value pairs in source order. -/
def typeEffectivenessList : List (String × TypeEntry) :=
  [ ("normal", ⟨["fighting"], [], ["ghost"]⟩),
    ("fire", ⟨["water", "ground", "rock"], ["fire", "grass", "ice", "bug", "steel", "fairy"], []⟩),
    ("water", ⟨["electric", "grass"], ["fire", "water", "ice", "steel"], []⟩),
    ("electric", ⟨["ground"], ["electric", "flying", "steel"], []⟩),
    ("grass", ⟨["fire", "ice", "poison", "flying", "bug"], ["water", "electric", "grass", "ground"], []⟩),
    ("ice", ⟨["fire", "fighting", "rock", "steel"], ["ice"], []⟩),
    ("fighting", ⟨["flying", "psychic", "fairy"], ["bug", "rock", "dark"], []⟩),
    ("poison", ⟨["ground", "psychic"], ["grass", "fighting", "poison", "bug", "fairy"], []⟩),
    ("ground", ⟨["water", "grass", "ice"], ["poison", "rock"], ["electric"]⟩),
    ("flying", ⟨["electric", "ice", "rock"], ["grass", "fighting", "bug"], ["ground"]⟩),
    ("psychic", ⟨["bug", "ghost", "dark"], ["fighting", "psychic"], []⟩),
    ("bug", ⟨["fire", "flying", "rock"], ["grass", "fighting", "ground"], []⟩),
    ("rock", ⟨["water", "grass", "fighting", "ground", "steel"], ["normal", "fire", "poison", "flying"], []⟩),
    ("ghost", ⟨["ghost", "dark"], ["poison", "bug"], ["normal", "fighting"]⟩),
    ("dragon", ⟨["ice", "dragon", "fairy"], ["fire", "water", "electric", "grass"], []⟩),
    ("dark", ⟨["fighting", "bug", "fairy"], ["ghost", "dark"], ["psychic"]⟩),
    ("steel", ⟨["fire", "fighting", "ground"], ["normal", "grass", "ice", "flying", "psychic", "bug", "rock", "dragon", "steel", "fairy"], ["poison"]⟩),
    ("fairy", ⟨["poison", "steel"], ["fighting", "bug", "dark"], ["dragon"]⟩) ]

/-- JS property access `typeEffectiveness[defType]`: `some` entry when
the key is present, `none` (JS `undefined`) otherwise. -/
def typeEffectiveness (defType : String) : Option TypeEntry :=
  typeEffectivenessList.lookup defType

/-- One iteration of the `defenderTypes.forEach` loop of
`calculateBattleDamage` in `main.js`: starting from the accumulated
`effectiveness`, multiply by 2 if the defending type is weak to the
move type, by 0.5 if resistant, by 0 if immune; a type with no table
entry is skipped (`if (typeChart)`). -/
def effectivenessStep (moveType : String) (eff : ℚ) (defType : String) : ℚ :=
  match typeEffectiveness defType with
  | some chart =>
      let e1 := if chart.weakTo.contains moveType then eff * 2 else eff
      let e2 := if chart.resistantTo.contains moveType then e1 * (1 / 2) else e1
      if chart.immuneTo.contains moveType then e2 * 0 else e2
  | none => eff

/-- The combined effectiveness multiplier: `let effectiveness = 1`
followed by the `forEach` over the defender types (`main.js`
lines 1056-1065). -/
def resolveMultiplier (moveType : String) (defenderTypes : List String) : ℚ :=
  defenderTypes.foldl (effectivenessStep moveType) 1

/-- The per-defending-type factor the loop body multiplies into the
accumulator; `effectivenessStep` is multiplication by this factor. -/
def typeFactor (moveType : String) (defType : String) : ℚ :=
  match typeEffectiveness defType with
  | some chart =>
      (if chart.weakTo.contains moveType then 2 else 1) *
      (if chart.resistantTo.contains moveType then 1 / 2 else 1) *
      (if chart.immuneTo.contains moveType then 0 else 1)
  | none => 1

/-- The qualitative effectiveness labels of the result display: the
four `effectivenessText` strings of `main.js` lines 1078-1082
("It has no effect!", "It's not very effective...",
"It's super effective!", "It's normally effective."). -/
inductive EffectivenessLabel where
  | noEffect
  | notVeryEffective
  | superEffective
  | normallyEffective
deriving DecidableEq, Repr

/-- The label branch of `main.js` lines 1078-1082, in source order:
`if (effectiveness === 0)` no effect, `else if (effectiveness < 1)`
not very effective, `else if (effectiveness > 1)` super effective,
`else` normally effective. -/
def classify (eff : ℚ) : EffectivenessLabel :=
  if eff = 0 then .noEffect
  else if eff < 1 then .notVeryEffective
  else if eff > 1 then .superEffective
  else .normallyEffective

/-- The exact value of the damage expression of `main.js` line 1072
before `effectiveness` is applied:
`(((2 * attackerLevel / 5 + 2) * movePower * attackStat / defenseStat) / 50) + 2`. -/
def rawDamage (level power attack defense : ℚ) : ℚ :=
  (2 * level / 5 + 2) * power * attack / defense / 50 + 2

/-- The triple the battle-result rendering displays: `baseDamage`,
`effectiveness` and the effectiveness label. -/
structure DamageResult where
  damage : ℤ
  multiplier : ℚ
  label : EffectivenessLabel
deriving DecidableEq, Repr

/-- `calculateBattleDamage` of `main.js` lines 1043-1093, restricted to
its computational content: resolve the combined effectiveness
multiplier over the defender types, compute
`baseDamage = Math.floor(rawDamage * effectiveness)`, and classify the
multiplier. Stats, move power and level are the natural numbers the
source obtains from the API data and `parseInt`. -/
def calculateBattleDamage (attackStat defenseStat : ℕ)
    (defenderTypes : List String) (moveType : String)
    (movePower attackerLevel : ℕ) : DamageResult :=
  let effectiveness := resolveMultiplier moveType defenderTypes
  let baseDamage : ℤ :=
    ⌊rawDamage attackerLevel movePower attackStat defenseStat * effectiveness⌋
  ⟨baseDamage, effectiveness, classify effectiveness⟩

namespace Gaming

/-- One entry of the hardcoded chart of `gamingController.js`: only
`weak` and `resist` lists, no immunities. -/
structure ChartEntry where
  weak : List String
  resist : List String
deriving DecidableEq, Repr

/-- The inline `typeChart` object of `gamingController.js`
lines 211-216: a 4-type subset chart. -/
def typeChartList : List (String × ChartEntry) :=
  [ ("fire", ⟨["water", "ground", "rock"], ["fire", "grass", "ice", "bug", "steel", "fairy"]⟩),
    ("water", ⟨["electric", "grass"], ["fire", "water", "ice", "steel"]⟩),
    ("grass", ⟨["fire", "ice", "poison", "flying", "bug"], ["water", "electric", "grass", "ground"]⟩),
    ("electric", ⟨["ground"], ["electric", "flying", "steel"]⟩) ]

/-- JS property access `typeChart[defType]`. -/
def typeChart (defType : String) : Option ChartEntry :=
  typeChartList.lookup defType

/-- One iteration of the `defenderTypes.forEach` loop of
`gamingController.js` lines 218-224: multiply by 2 on `weak`, by 0.5
on `resist`; no immunity branch; missing entries are skipped. -/
def effectivenessStep (moveType : String) (eff : ℚ) (defType : String) : ℚ :=
  match typeChart defType with
  | some chart =>
      let e1 := if chart.weak.contains moveType then eff * 2 else eff
      if chart.resist.contains moveType then e1 * (1 / 2) else e1
  | none => eff

/-- The combined multiplier of the gamingController implementation. -/
def resolveMultiplier (moveType : String) (defenderTypes : List String) : ℚ :=
  defenderTypes.foldl (effectivenessStep moveType) 1

/-- The per-type factor of the gamingController loop body. -/
def typeFactor (moveType : String) (defType : String) : ℚ :=
  match typeChart defType with
  | some chart =>
      (if chart.weak.contains moveType then 2 else 1) *
      (if chart.resist.contains moveType then 1 / 2 else 1)
  | none => 1

/-- The label branch of `gamingController.js` lines 237-240: no
zero-effectiveness case; `< 1` not very effective, `> 1` super
effective, otherwise normally effective. -/
def classify (eff : ℚ) : EffectivenessLabel :=
  if eff < 1 then .notVeryEffective
  else if eff > 1 then .superEffective
  else .normallyEffective

/-- `calculateBattleDamage` of `gamingController.js` lines 195-251,
restricted to its computational content; the damage formula is the
same as in `main.js`. -/
def calculateBattleDamage (attackStat defenseStat : ℕ)
    (defenderTypes : List String) (moveType : String)
    (movePower attackerLevel : ℕ) : DamageResult :=
  let effectiveness := resolveMultiplier moveType defenderTypes
  let baseDamage : ℤ :=
    ⌊rawDamage attackerLevel movePower attackStat defenseStat * effectiveness⌋
  ⟨baseDamage, effectiveness, classify effectiveness⟩

end Gaming

/-- The closed set of 18 element type names: exactly the keys of the
`typeEffectiveness` table, the `ElementType` enumeration of the data
model. -/
inductive ElementType where
  | normal | fire | water | electric | grass | ice | fighting | poison | ground
  | flying | psychic | bug | rock | ghost | dragon | dark | steel | fairy
deriving DecidableEq, Repr, Fintype

/-- The JS string naming each element type. -/
def ElementType.name : ElementType → String
  | .normal => "normal"
  | .fire => "fire"
  | .water => "water"
  | .electric => "electric"
  | .grass => "grass"
  | .ice => "ice"
  | .fighting => "fighting"
  | .poison => "poison"
  | .ground => "ground"
  | .flying => "flying"
  | .psychic => "psychic"
  | .bug => "bug"
  | .rock => "rock"
  | .ghost => "ghost"
  | .dragon => "dragon"
  | .dark => "dark"
  | .steel => "steel"
  | .fairy => "fairy"

/-- The `immuneTo` set the table assigns to a defending type name
(empty when the name has no entry). -/
def immuneListOf (defType : String) : List String :=
  match typeEffectiveness defType with
  | some chart => chart.immuneTo
  | none => []

/-- Spec-side comparator for the classify operation, written from the
spec's words: multiplier 0 maps to no-effect, a multiplier strictly
between 0 and 1 to not-very-effective, exactly 1 to
normally-effective, and greater than 1 to super-effective. -/
def specClassify (m : ℚ) : EffectivenessLabel :=
  if m = 0 then .noEffect
  else if 0 < m ∧ m < 1 then .notVeryEffective
  else if m = 1 then .normallyEffective
  else .superEffective

/-- The two typed validation failures the spec's error taxonomy
names. -/
inductive BattleError where
  | invalidProfile
  | invalidMove
deriving DecidableEq, Repr

/-- Spec-side comparator for the calculate operation, written from the
spec's words: fail with `InvalidProfile` when `defense <= 0`, with
`InvalidMove` when `power < 1` or `level` outside `[1,100]`, otherwise
produce the damage result. Used to compare the spec's error contract
with the code, which performs no validation. -/
def calculateSpec (attackStat defenseStat : ℕ)
    (defenderTypes : List String) (moveType : String)
    (movePower attackerLevel : ℕ) : Except BattleError DamageResult :=
  if defenseStat ≤ 0 then .error .invalidProfile
  else if movePower < 1 ∨ attackerLevel < 1 ∨ 100 < attackerLevel then .error .invalidMove
  else
    let effectiveness := resolveMultiplier moveType defenderTypes
    .ok ⟨⌊rawDamage attackerLevel movePower attackStat defenseStat * effectiveness⌋,
         effectiveness, specClassify effectiveness⟩

/-- The bundled inputs of one damage calculation, the
`BattleParameters` of the data model: attacker and defender stats,
the defender's type names, and the move type, power and level the
source reads from the battle form. -/
structure BattleParameters where
  attackStat : ℕ
  defenseStat : ℕ
  defenderTypes : List String
  moveType : String
  movePower : ℕ
  level : ℕ
deriving DecidableEq, Repr

/-- The calculate operation over bundled parameters. -/
def calculate (p : BattleParameters) : DamageResult :=
  calculateBattleDamage p.attackStat p.defenseStat p.defenderTypes
    p.moveType p.movePower p.level

/-- Each loop iteration multiplies the accumulator by the per-type
factor. -/
theorem effectivenessStep_eq_mul (mt : String) (eff : ℚ) (d : String) :
    effectivenessStep mt eff d = eff * typeFactor mt d := by
  rcases h : typeEffectiveness d with _ | chart <;>
    simp only [effectivenessStep, typeFactor, h] <;> [skip; split_ifs] <;> ring

/-- The fold over the defender types computes the product of the
per-type factors. -/
theorem foldl_effectivenessStep (mt : String) (l : List String) (acc : ℚ) :
    l.foldl (effectivenessStep mt) acc = acc * (l.map (typeFactor mt)).prod := by
  induction l generalizing acc with
  | nil => simp
  | cons d l ih =>
      simp only [List.foldl_cons, List.map_cons, List.prod_cons, ih,
        effectivenessStep_eq_mul]
      ring

/-- The combined multiplier is the product of the per-type factors. -/
theorem resolveMultiplier_eq_prod (mt : String) (l : List String) :
    resolveMultiplier mt l = (l.map (typeFactor mt)).prod := by
  simpa using foldl_effectivenessStep mt l 1

/-- Every per-type factor is nonnegative. -/
theorem typeFactor_nonneg (mt d : String) : 0 ≤ typeFactor mt d := by
  rcases h : typeEffectiveness d with _ | chart <;>
    simp only [typeFactor, h] <;> [norm_num; split_ifs] <;> norm_num

/-- The combined multiplier is nonnegative for every move type and
every list of defender types. -/
theorem resolveMultiplier_nonneg (mt : String) (l : List String) :
    0 ≤ resolveMultiplier mt l := by
  rw [resolveMultiplier_eq_prod]
  exact List.prod_nonneg (by
    intro x hx
    rcases List.mem_map.1 hx with ⟨d, _, rfl⟩
    exact typeFactor_nonneg mt d)

/-- A defending type whose entry lists the move type as an immunity
contributes a factor of exactly 0. -/
theorem typeFactor_eq_zero_of_immune (mt d : String)
    (h : mt ∈ immuneListOf d) : typeFactor mt d = 0 := by
  rcases hd : typeEffectiveness d with _ | chart <;>
    simp only [immuneListOf, hd, List.not_mem_nil] at h
  have hc : chart.immuneTo.contains mt = true := by
    simpa [List.contains, List.elem_iff] using h
  simp only [typeFactor, hd, hc]
  split_ifs <;> ring

/-- The per-type factors of the gamingController loop body. -/
theorem gamingStep_eq_mul (mt : String) (eff : ℚ) (d : String) :
    Gaming.effectivenessStep mt eff d = eff * Gaming.typeFactor mt d := by
  rcases h : Gaming.typeChart d with _ | chart <;>
    simp only [Gaming.effectivenessStep, Gaming.typeFactor, h] <;>
    [skip; split_ifs] <;> ring

/-- The gamingController fold computes the product of its per-type
factors. -/
theorem gamingFoldl_effectivenessStep (mt : String) (l : List String) (acc : ℚ) :
    l.foldl (Gaming.effectivenessStep mt) acc =
      acc * (l.map (Gaming.typeFactor mt)).prod := by
  induction l generalizing acc with
  | nil => simp
  | cons d l ih =>
      simp only [List.foldl_cons, List.map_cons, List.prod_cons, ih,
        gamingStep_eq_mul]
      ring

/-- The gamingController multiplier is the product of its per-type
factors. -/
theorem gamingResolveMultiplier_eq_prod (mt : String) (l : List String) :
    Gaming.resolveMultiplier mt l = (l.map (Gaming.typeFactor mt)).prod := by
  simpa using gamingFoldl_effectivenessStep mt l 1

/-- Claim C1: for every attack type and every defender type sequence
of length 1 or 2, if any defending type lists the attack type in its
`immuneTo` set, the combined effectiveness multiplier is exactly 0,
the resulting damage is 0 and the label is no-effect, regardless of
the other defending type and of all stat values. -/
theorem c1_immunity_dominates (a : ElementType) (l : List ElementType)
    (_hlen : l.length = 1 ∨ l.length = 2)
    (h : ∃ d ∈ l, a.name ∈ immuneListOf d.name)
    (attackStat defenseStat movePower attackerLevel : ℕ) :
    resolveMultiplier a.name (l.map ElementType.name) = 0 ∧
    (calculateBattleDamage attackStat defenseStat (l.map ElementType.name)
      a.name movePower attackerLevel).damage = 0 ∧
    (calculateBattleDamage attackStat defenseStat (l.map ElementType.name)
      a.name movePower attackerLevel).label = .noEffect := by
  obtain ⟨d, hd, him⟩ := h
  have hmul : resolveMultiplier a.name (l.map ElementType.name) = 0 := by
    rw [resolveMultiplier_eq_prod]
    exact List.prod_eq_zero (List.mem_map.mpr
      ⟨d.name, List.mem_map.mpr ⟨d, hd, rfl⟩,
        typeFactor_eq_zero_of_immune a.name d.name him⟩)
  refine ⟨hmul, ?_, ?_⟩ <;>
    simp [calculateBattleDamage, hmul, classify]

/-- Witness for C1: an electric-type move against a defender with
types consisting of ground alone yields multiplier 0, damage 0 and the
no-effect label. -/
theorem c1_immunity_dominates_witness :
    resolveMultiplier "electric" ["ground"] = 0 ∧
    (calculateBattleDamage 100 100 ["ground"] "electric" 80 50).damage = 0 ∧
    (calculateBattleDamage 100 100 ["ground"] "electric" 80 50).label = .noEffect := by
  have h := c1_immunity_dominates .electric [.ground] (Or.inl rfl)
    ⟨.ground, by decide, by decide⟩ 100 100 80 50
  simpa using h

/-- Claim C2 counterexample: with `defense = 0` (and otherwise
scenario-A inputs) the code produces a damage result rather than
failing with `InvalidProfile`: no validation exists in the source.
Under the exact-rational embedding the division by zero contributes 0,
so the raw damage collapses to 2 and the result is
`⟨4, 2, superEffective⟩`, while the operation described by the spec
fails with `InvalidProfile` on the same input. -/
theorem c2_no_validation_counterexample :
    calculateBattleDamage 100 0 ["fire"] "water" 80 50 =
      ⟨4, 2, .superEffective⟩ ∧
    calculateSpec 100 0 ["fire"] "water" 80 50 = .error .invalidProfile := by
  exact ⟨by decide, rfl⟩

/-- Claim C2 as amended: the code performs no input validation and has
no error path; it is a total function producing a `DamageResult` for
every input. In particular a zero defense stat does not fail: the
division contributes 0 (in JavaScript it yields `Infinity` rather than
an exception) and, in the rational model, the produced damage is
`⌊2 * multiplier⌋`. -/
theorem c2_no_validation_amended (attackStat movePower attackerLevel : ℕ)
    (defenderTypes : List String) (moveType : String) :
    calculateBattleDamage attackStat 0 defenderTypes moveType movePower attackerLevel =
      ⟨⌊(2 : ℚ) * resolveMultiplier moveType defenderTypes⌋,
       resolveMultiplier moveType defenderTypes,
       classify (resolveMultiplier moveType defenderTypes)⟩ := by
  simp [calculateBattleDamage, rawDamage]

/-- Claim C3: for every valid input (positive defense, power at least
1, level within 1..100) the damage is the floor of the exact rational
raw-damage value times the multiplier — truncation applied exactly
once, after the multiplier — and the damage is never negative. -/
theorem c3_damage_formula (attackStat defenseStat movePower attackerLevel : ℕ)
    (defenderTypes : List String) (moveType : String)
    (_hdef : 0 < defenseStat) (_hpow : 1 ≤ movePower)
    (_hlvl1 : 1 ≤ attackerLevel) (_hlvl2 : attackerLevel ≤ 100) :
    (calculateBattleDamage attackStat defenseStat defenderTypes moveType
      movePower attackerLevel).damage =
      ⌊rawDamage attackerLevel movePower attackStat defenseStat *
        resolveMultiplier moveType defenderTypes⌋ ∧
    0 ≤ (calculateBattleDamage attackStat defenseStat defenderTypes moveType
      movePower attackerLevel).damage := by
  constructor
  · rfl
  · apply Int.floor_nonneg.mpr
    apply mul_nonneg _ (resolveMultiplier_nonneg _ _)
    unfold rawDamage
    positivity

/-- Witness for C3, scenario A: attack 100, defense 100, power 80,
water move at level 50 against a pure fire defender gives multiplier 2
and damage 74. -/
theorem c3_damage_formula_witness :
    (calculateBattleDamage 100 100 ["fire"] "water" 80 50).damage =
      ⌊rawDamage ((50 : ℕ) : ℚ) ((80 : ℕ) : ℚ) ((100 : ℕ) : ℚ) ((100 : ℕ) : ℚ) *
        resolveMultiplier "water" ["fire"]⌋ ∧
    0 ≤ (calculateBattleDamage 100 100 ["fire"] "water" 80 50).damage ∧
    calculateBattleDamage 100 100 ["fire"] "water" 80 50 =
      ⟨74, 2, .superEffective⟩ := by
  refine ⟨?_, ?_, by decide⟩
  · exact (c3_damage_formula 100 100 80 50 ["fire"] "water"
      (by decide) (by decide) (by decide) (by decide)).1
  · exact (c3_damage_formula 100 100 80 50 ["fire"] "water"
      (by decide) (by decide) (by decide) (by decide)).2

/-- On the four defending types the gamingController chart covers, its
per-type factor agrees with the full chart: the `weak` and `resist`
lists coincide and the full chart has no immunities for these types. -/
theorem typeFactor_eq_on_charted (a t : String)
    (ht : t ∈ (["fire", "water", "grass", "electric"] : List String)) :
    Gaming.typeFactor a t = typeFactor a t := by
  simp only [List.mem_cons, List.not_mem_nil, or_false] at ht
  rcases ht with rfl | rfl | rfl | rfl <;>
    simp [Gaming.typeFactor, typeFactor, Gaming.typeChart, typeEffectiveness,
      Gaming.typeChartList, typeEffectivenessList, List.lookup, List.contains,
      List.elem]

/-- Claim C4 counterexample: the two duplicate damage implementations
disagree on the dual-type defender grass/poison attacked with a
psychic move — the full chart of `main.js` yields multiplier 2 and
damage 74 (with scenario-A stats), the 4-type chart of
`gamingController.js` yields multiplier 1 and damage 37, because its
chart has no entry for poison. -/
theorem c4_duplicates_counterexample :
    resolveMultiplier "psychic" ["grass", "poison"] = 2 ∧
    Gaming.resolveMultiplier "psychic" ["grass", "poison"] = 1 ∧
    (calculateBattleDamage 100 100 ["grass", "poison"] "psychic" 80 50).damage = 74 ∧
    (Gaming.calculateBattleDamage 100 100 ["grass", "poison"] "psychic" 80 50).damage = 37 := by
  refine ⟨by decide, by decide, by decide, by decide⟩

/-- Claim C4 as amended: the two implementations agree exactly on
defenders all of whose types lie in the 4-type subset chart (fire,
water, grass, electric) — there they return the same multiplier and
the same damage for every move type and all stats; outside that subset
they diverge, e.g. on defender types grass and poison under a psychic
move. -/
theorem c4_duplicates_amended (moveType : String)
    (defenderTypes : List String)
    (h : ∀ t ∈ defenderTypes, t ∈ (["fire", "water", "grass", "electric"] : List String)) :
    Gaming.resolveMultiplier moveType defenderTypes =
      resolveMultiplier moveType defenderTypes ∧
    ∀ attackStat defenseStat movePower attackerLevel : ℕ,
      (Gaming.calculateBattleDamage attackStat defenseStat defenderTypes
        moveType movePower attackerLevel).damage =
      (calculateBattleDamage attackStat defenseStat defenderTypes
        moveType movePower attackerLevel).damage := by
  have hm : Gaming.resolveMultiplier moveType defenderTypes =
      resolveMultiplier moveType defenderTypes := by
    rw [gamingResolveMultiplier_eq_prod, resolveMultiplier_eq_prod]
    exact congrArg List.prod
      (List.map_congr_left fun t htl => typeFactor_eq_on_charted moveType t (h t htl))
  exact ⟨hm, fun attackStat defenseStat movePower attackerLevel => by
    simp [Gaming.calculateBattleDamage, calculateBattleDamage, hm]⟩

/-- Witness for the amended C4: on a water/grass defender the two
implementations produce the same multiplier and the same damage. -/
theorem c4_duplicates_amended_witness :
    Gaming.resolveMultiplier "psychic" ["water", "grass"] =
      resolveMultiplier "psychic" ["water", "grass"] ∧
    (Gaming.calculateBattleDamage 100 100 ["water", "grass"] "psychic" 80 50).damage =
      (calculateBattleDamage 100 100 ["water", "grass"] "psychic" 80 50).damage := by
  have h := c4_duplicates_amended "psychic" ["water", "grass"] (by decide)
  exact ⟨h.1, h.2 100 100 80 50⟩

/-- For the 18 element types, every per-type factor of the full chart
is 0, one half, 1 or 2. -/
theorem typeFactor_mem_of_elementTypes :
    ∀ a d : ElementType,
      typeFactor a.name d.name ∈ ([0, 1 / 2, 1, 2] : List ℚ) := by decide

/-- Claim C5: for every attack type among the 18 element types, the
combined multiplier over a single-typed defender lies in the set
consisting of 0, one half, 1 and 2, and over a dual-typed defender in
the set consisting of 0, one quarter, one half, 1, 2 and 4. -/
theorem c5_multiplier_range (a t1 t2 : ElementType) :
    resolveMultiplier a.name [t1.name] ∈ ([0, 1 / 2, 1, 2] : List ℚ) ∧
    resolveMultiplier a.name [t1.name, t2.name] ∈
      ([0, 1 / 4, 1 / 2, 1, 2, 4] : List ℚ) := by
  constructor
  · rw [resolveMultiplier_eq_prod]
    simpa using typeFactor_mem_of_elementTypes a t1
  · rw [resolveMultiplier_eq_prod]
    have h1 := typeFactor_mem_of_elementTypes a t1
    have h2 := typeFactor_mem_of_elementTypes a t2
    simp only [List.map_cons, List.map_nil, List.prod_cons, List.prod_nil,
      mul_one, List.mem_cons, List.not_mem_nil, or_false] at h1 h2 ⊢
    rcases h1 with h1 | h1 | h1 | h1 <;> rcases h2 with h2 | h2 | h2 | h2 <;>
      rw [h1, h2] <;> norm_num

/-- Claim C6: the classify step of the code agrees with the spec's
deterministic mapping on every nonnegative multiplier — 0 to
no-effect, strictly between 0 and 1 to not-very-effective, exactly 1
to normally-effective, greater than 1 to super-effective. -/
theorem c6_classify_spec (m : ℚ) (hm : 0 ≤ m) :
    classify m = specClassify m := by
  rcases eq_or_lt_of_le hm with h0 | h0
  · simp [classify, specClassify, ← h0]
  · rcases lt_trichotomy m 1 with h1 | h1 | h1
    · simp [classify, specClassify, h0, h1, h0.ne', ne_of_lt h1]
    · subst h1; norm_num [classify, specClassify]
    · simp [classify, specClassify, h0.ne', lt_asymm h1, h1, h1.ne']

/-- Witness for C6 at multiplier one half. -/
theorem c6_classify_spec_witness :
    classify (1 / 2) = specClassify (1 / 2) :=
  c6_classify_spec (1 / 2) (by norm_num)

/-- Claim C7: the `typeEffectiveness` table has no duplicate keys,
covers all 18 element types, its keys are exactly element-type names,
and in every entry the `weakTo`, `resistantTo` and `immuneTo` sets are
pairwise disjoint. -/
theorem c7_table_wellformed :
    (typeEffectivenessList.map Prod.fst).Nodup ∧
    (∀ e : ElementType, (typeEffectiveness e.name).isSome) ∧
    (∀ k ∈ typeEffectivenessList.map Prod.fst, ∃ e : ElementType, e.name = k) ∧
    (∀ p ∈ typeEffectivenessList,
      (∀ t ∈ p.2.weakTo, t ∉ p.2.resistantTo ∧ t ∉ p.2.immuneTo) ∧
      (∀ t ∈ p.2.resistantTo, t ∉ p.2.immuneTo)) := by decide

/-- Claim C8: the effectiveness resolution is commutative in the order
of a dual-typed defender's types, for every move type and every pair
of defender type names. -/
theorem c8_resolveMultiplier_comm (moveType t1 t2 : String) :
    resolveMultiplier moveType [t1, t2] = resolveMultiplier moveType [t2, t1] := by
  rw [resolveMultiplier_eq_prod, resolveMultiplier_eq_prod]
  simp [mul_comm]

/-- Every type name occurring in a `weakTo`, `resistantTo` or
`immuneTo` set of the table is itself a key of the table. -/
theorem table_lists_subset_keys :
    ∀ p ∈ typeEffectivenessList,
      ∀ t ∈ p.2.weakTo ++ p.2.resistantTo ++ p.2.immuneTo,
        t ∈ typeEffectivenessList.map Prod.fst := by decide

/-- Claim C9: a defender type with no table entry contributes a
neutral factor for EVERY attack type, listed or not — the
`if (typeChart)` guard skips it, so deleting it from the defender type
list leaves the multiplier unchanged while the other types' modifiers
still apply — and a move type that is not a table key (hence appears
in no weakness, resistance or immunity set) has no modifying effect:
the multiplier over any defender list is 1. The calculation is total,
so it completes without error in both cases. -/
theorem c9_unknown_types_neutral (moveType defType : String)
    (l1 l2 l : List String)
    (hdef : typeEffectiveness defType = none)
    (hmove : moveType ∉ typeEffectivenessList.map Prod.fst) :
    (∀ mt : String, resolveMultiplier mt (l1 ++ defType :: l2) =
      resolveMultiplier mt (l1 ++ l2)) ∧
    resolveMultiplier moveType l = 1 := by
  constructor
  · intro mt
    have hfd : typeFactor mt defType = 1 := by simp [typeFactor, hdef]
    rw [resolveMultiplier_eq_prod, resolveMultiplier_eq_prod]
    simp [List.map_append, List.prod_append, hfd]
  · rw [resolveMultiplier_eq_prod]
    have hf : ∀ d : String, typeFactor moveType d = 1 := by
      intro d
      rcases hd : typeEffectiveness d with _ | chart
      · simp [typeFactor, hd]
      · obtain ⟨la, lb, heq, -⟩ := List.lookup_eq_some_iff.mp hd
        have hmem : (d, chart) ∈ typeEffectivenessList := by
          rw [heq]
          exact List.mem_append_right _ (List.mem_cons_self _ _)
        have hsub := table_lists_subset_keys (d, chart) hmem
        have hw : moveType ∉ chart.weakTo := fun hx =>
          hmove (hsub moveType (List.mem_append_left _ (List.mem_append_left _ hx)))
        have hr : moveType ∉ chart.resistantTo := fun hx =>
          hmove (hsub moveType (List.mem_append_left _ (List.mem_append_right _ hx)))
        have hi : moveType ∉ chart.immuneTo := fun hx =>
          hmove (hsub moveType (List.mem_append_right _ hx))
        simp [typeFactor, hd, List.contains, List.elem_iff, hw, hr, hi]
    have : l.map (typeFactor moveType) = l.map (fun _ => (1 : ℚ)) :=
      List.map_congr_left fun d _ => hf d
    simp [this]

/-- Witness for C9: an unknown defender type is skipped even under the
listed move type water (the fire type's weakness still applies on both
sides), and an unknown move type leaves the multiplier at 1. -/
theorem c9_unknown_types_neutral_witness :
    resolveMultiplier "water" ([] ++ "unknown" :: ["fire"]) =
      resolveMultiplier "water" ([] ++ ["fire"]) ∧
    resolveMultiplier "shadow" ["fire", "water"] = 1 :=
  ⟨(c9_unknown_types_neutral "shadow" "unknown" [] ["fire"] ["fire", "water"]
      (by decide) (by decide)).1 "water",
   (c9_unknown_types_neutral "shadow" "unknown" [] ["fire"] ["fire", "water"]
      (by decide) (by decide)).2⟩

/-- Claim C10: the calculation is a deterministic function of the
battle parameters — two invocations on componentwise-identical inputs
return identical damage, multiplier and label; the embedding carries
no other state the result could depend on. -/
theorem c10_calculate_deterministic (p q : BattleParameters)
    (h1 : p.attackStat = q.attackStat) (h2 : p.defenseStat = q.defenseStat)
    (h3 : p.defenderTypes = q.defenderTypes) (h4 : p.moveType = q.moveType)
    (h5 : p.movePower = q.movePower) (h6 : p.level = q.level) :
    calculate p = calculate q ∧
    (calculate p).damage = (calculate q).damage ∧
    (calculate p).multiplier = (calculate q).multiplier ∧
    (calculate p).label = (calculate q).label := by
  have hpq : p = q := by cases p; cases q; simp_all
  subst hpq
  exact ⟨rfl, rfl, rfl, rfl⟩

/-- Witness for C10 at scenario-A inputs. -/
theorem c10_calculate_deterministic_witness :
    calculate ⟨100, 100, ["fire"], "water", 80, 50⟩ =
      calculate ⟨100, 100, ["fire"], "water", 80, 50⟩ ∧
    (calculate ⟨100, 100, ["fire"], "water", 80, 50⟩).damage =
      (calculate ⟨100, 100, ["fire"], "water", 80, 50⟩).damage ∧
    (calculate ⟨100, 100, ["fire"], "water", 80, 50⟩).multiplier =
      (calculate ⟨100, 100, ["fire"], "water", 80, 50⟩).multiplier ∧
    (calculate ⟨100, 100, ["fire"], "water", 80, 50⟩).label =
      (calculate ⟨100, 100, ["fire"], "water", 80, 50⟩).label :=
  c10_calculate_deterministic _ _ rfl rfl rfl rfl rfl rfl

